import Mathlib

/-!
Shallow embedding of the smart-home record-keeping API (`src/app.py`).

The relational store (SQLite via SQLAlchemy) is modelled as lists of rows,
one list per table, in insertion order.  Each handler becomes a Lean
function over an explicit `Store`; fallible handlers return `Except`.
SQL `GROUP BY` over a join is modelled by `sqlGroupBy`: one output row per
distinct key of the joined row list, in first-class list form.
`house_area` (a SQL float) is modelled as `Rat`; the claims under study
concern only equality and sign of this value, not rounding.
-/

/-- Row of the `users` table (src/app.py lines 18-24). -/
structure UserRow where
  id : Int
  name : String
  email : String
  password : String
  house_area : Rat
deriving DecidableEq

/-- Row of the `devices` table (src/app.py lines 26-32). -/
structure DeviceRow where
  id : Int
  name : String
  type : String
  owner_id : Int
deriving DecidableEq

/-- Row of the `security_events` table (src/app.py lines 34-40). -/
structure SecurityEventRow where
  id : Int
  event_type : String
  description : String
  device_id : Int
deriving DecidableEq

/-- Row of the `feedback` table (src/app.py lines 42-47). -/
structure FeedbackRow where
  id : Int
  user_id : Int
  feedback_text : String
deriving DecidableEq

/-- Row of the `device_usage` table (src/app.py lines 157-166).
Note: the columns are `usage_start`, `usage_end`, `duration`; there is no
`usage_time` column. -/
structure DeviceUsageRow where
  id : Int
  device_id : Int
  user_id : Int
  usage_start : String
  usage_end : String
  duration : Int
deriving DecidableEq

/-- The whole relational store: one list of rows per table, insertion order. -/
structure Store where
  users : List UserRow
  devices : List DeviceRow
  security_events : List SecurityEventRow
  feedback : List FeedbackRow
  device_usage : List DeviceUsageRow
deriving DecidableEq

/-- Pydantic input model `UserCreate` (src/app.py lines 53-57). -/
structure UserCreate where
  name : String
  email : String
  password : String
  house_area : Rat
deriving DecidableEq

/-- Pydantic input model `DeviceCreate` (src/app.py lines 59-62). -/
structure DeviceCreate where
  name : String
  type : String
  owner_id : Int
deriving DecidableEq

/-- Pydantic input model `SecurityEventCreate` (src/app.py lines 64-67). -/
structure SecurityEventCreate where
  event_type : String
  description : String
  device_id : Int
deriving DecidableEq

/-- Pydantic input model `FeedbackCreate` (src/app.py lines 69-71). -/
structure FeedbackCreate where
  user_id : Int
  feedback_text : String
deriving DecidableEq

/-- Pydantic input model `DeviceUsageCreate` (src/app.py lines 168-171):
a single combined `usage_time` label, no start/end timestamps. -/
structure DeviceUsageCreate where
  device_id : Int
  usage_time : String
  duration : Int
deriving DecidableEq

/-- Fresh primary-key assignment: SQLite assigns `max existing rowid + 1`. -/
def nextId (ids : List Int) : Int := ids.foldr max 0 + 1

/-- Serialization of a `users` row through `response_model=UserCreate`
(src/app.py lines 97 and 110): every declared field, password included. -/
def UserCreate.ofRow (r : UserRow) : UserCreate :=
  { name := r.name, email := r.email, password := r.password,
    house_area := r.house_area }

/-- Serialization of a `devices` row through `response_model=DeviceCreate`. -/
def DeviceCreate.ofRow (r : DeviceRow) : DeviceCreate :=
  { name := r.name, type := r.type, owner_id := r.owner_id }

/-- Serialization of a `security_events` row through
`response_model=SecurityEventCreate`. -/
def SecurityEventCreate.ofRow (r : SecurityEventRow) : SecurityEventCreate :=
  { event_type := r.event_type, description := r.description,
    device_id := r.device_id }

/-- Serialization of a `feedback` row through `response_model=FeedbackCreate`. -/
def FeedbackCreate.ofRow (r : FeedbackRow) : FeedbackCreate :=
  { user_id := r.user_id, feedback_text := r.feedback_text }

/-- Embeds `create_user` (src/app.py lines 97-108): build a `User` row from the
payload, add, commit.  `users.email` carries a UNIQUE constraint
(src/app.py line 22), so the commit fails on a duplicate email and the row
is not persisted; the handler has no try/except, so the store error
propagates verbatim. -/
def create_user (s : Store) (u : UserCreate) : Except String (UserRow × Store) :=
  if s.users.any (fun v => v.email == u.email) then
    Except.error "IntegrityError: UNIQUE constraint failed: users.email"
  else
    let r : UserRow :=
      { id := nextId (s.users.map UserRow.id), name := u.name, email := u.email,
        password := u.password, house_area := u.house_area }
    Except.ok (r, { s with users := s.users ++ [r] })

/-- Embeds `create_device` (src/app.py lines 116-122).  No explicit existence check
on `owner_id` and SQLite does not enforce foreign keys by default, so the
insert always succeeds. -/
def create_device (s : Store) (d : DeviceCreate) : DeviceRow × Store :=
  let r : DeviceRow :=
    { id := nextId (s.devices.map DeviceRow.id), name := d.name,
      type := d.type, owner_id := d.owner_id }
  (r, { s with devices := s.devices ++ [r] })

/-- Embeds `create_security_event` (src/app.py lines 130-136). -/
def create_security_event (s : Store) (e : SecurityEventCreate) :
    SecurityEventRow × Store :=
  let r : SecurityEventRow :=
    { id := nextId (s.security_events.map SecurityEventRow.id),
      event_type := e.event_type, description := e.description,
      device_id := e.device_id }
  (r, { s with security_events := s.security_events ++ [r] })

/-- Embeds `create_feedback` (src/app.py lines 144-150). -/
def create_feedback (s : Store) (f : FeedbackCreate) : FeedbackRow × Store :=
  let r : FeedbackRow :=
    { id := nextId (s.feedback.map FeedbackRow.id), user_id := f.user_id,
      feedback_text := f.feedback_text }
  (r, { s with feedback := s.feedback ++ [r] })

/-- A Python value passed as a keyword argument to a declarative-model
constructor. -/
inductive PyVal where
  | vint (n : Int)
  | vstr (s : String)
deriving DecidableEq

/-- A `DeviceUsage` row with every column still unset. -/
def DeviceUsageRow.unset : DeviceUsageRow :=
  { id := 0, device_id := 0, user_id := 0, usage_start := "", usage_end := "",
    duration := 0 }

/-- One step of the SQLAlchemy declarative constructor `DeviceUsage(**kwargs)`:
a keyword naming a mapped column sets that column; any other keyword raises
`TypeError` (the mapped columns are those of src/app.py lines 157-166). -/
def deviceUsageSetAttr (r : DeviceUsageRow) (kv : String × PyVal) :
    Except String DeviceUsageRow :=
  match kv with
  | ("device_id", PyVal.vint n) => Except.ok { r with device_id := n }
  | ("user_id", PyVal.vint n) => Except.ok { r with user_id := n }
  | ("usage_start", PyVal.vstr t) => Except.ok { r with usage_start := t }
  | ("usage_end", PyVal.vstr t) => Except.ok { r with usage_end := t }
  | ("duration", PyVal.vint n) => Except.ok { r with duration := n }
  | (k, _) =>
    Except.error (String.append k " is an invalid keyword argument for DeviceUsage")

/-- The SQLAlchemy declarative constructor `DeviceUsage(**kwargs)`: process the
keyword arguments in order, failing on the first unknown one. -/
def deviceUsageInit (kwargs : List (String × PyVal)) : Except String DeviceUsageRow :=
  kwargs.foldlM deviceUsageSetAttr DeviceUsageRow.unset

/-- Embeds `create_device_usage` (src/app.py lines 173-183): the handler calls
`DeviceUsage(device_id=..., usage_time=..., duration=...)`.  `usage_time` is
not a column of `device_usage`, so the constructor raises before `db.add`. -/
def create_device_usage (s : Store) (u : DeviceUsageCreate) :
    Except String (DeviceUsageRow × Store) :=
  match deviceUsageInit
      [("device_id", PyVal.vint u.device_id),
       ("usage_time", PyVal.vstr u.usage_time),
       ("duration", PyVal.vint u.duration)] with
  | Except.error e => Except.error e
  | Except.ok r =>
    let r2 := { r with id := nextId (s.device_usage.map DeviceUsageRow.id) }
    Except.ok (r2, { s with device_usage := s.device_usage ++ [r2] })

/-- Embeds `read_users` (src/app.py lines 110-112): all rows, serialized through
`response_model=List of UserCreate`. -/
def read_users (s : Store) : List UserCreate := s.users.map UserCreate.ofRow

/-- Embeds `read_devices` (src/app.py lines 124-126). -/
def read_devices (s : Store) : List DeviceCreate := s.devices.map DeviceCreate.ofRow

/-- Embeds `read_security_events` (src/app.py lines 138-140). -/
def read_security_events (s : Store) : List SecurityEventCreate :=
  s.security_events.map SecurityEventCreate.ofRow

/-- Embeds `read_feedback` (src/app.py lines 152-154). -/
def read_feedback (s : Store) : List FeedbackCreate :=
  s.feedback.map FeedbackCreate.ofRow

/-- Embeds `get_user_house_area` (src/app.py lines 245-250): filter users by id,
take the first; raise HTTP 404 when there is none. -/
def get_user_house_area (s : Store) (user_id : Int) : Except String (Int × Rat) :=
  match (s.users.filter (fun u => u.id == user_id)).head? with
  | none => Except.error "User not found"
  | some u => Except.ok (user_id, u.house_area)

/-- Embeds `get_all_users_house_areas` (src/app.py lines 252-255). -/
def get_all_users_house_areas (s : Store) : List (Int × String × Rat) :=
  s.users.map (fun u => (u.id, u.name, u.house_area))

/-- The usage rows whose `device_id` column equals `i`. -/
def usagesOf (usage : List DeviceUsageRow) (i : Int) : List DeviceUsageRow :=
  usage.filter (fun g => g.device_id == i)

/-- The inner join `Device JOIN DeviceUsage ON Device.id = DeviceUsage.device_id`
(src/app.py line 195 and line 209). -/
def deviceUsageJoin (devs : List DeviceRow) (usage : List DeviceUsageRow) :
    List (DeviceRow × DeviceUsageRow) :=
  devs.flatMap (fun d => (usagesOf usage d.id).map (fun g => (d, g)))

/-- SQL `GROUP BY`: one output group per distinct key value occurring in
`rows`, each paired with the rows carrying that key. -/
def sqlGroupBy {α κ : Type} [DecidableEq κ] (key : α → κ) (rows : List α) :
    List (κ × List α) :=
  ((rows.map key).dedup).map (fun k => (k, rows.filter (fun r => decide (key r = k))))

/-- The SELECT list of the usage summary (src/app.py lines 190-194):
`Device.name`, `count(DeviceUsage.id)`, `sum(DeviceUsage.duration)` over one
group (the bare `Device.name` is taken from a row of the group). -/
def summaryRow (grp : List (DeviceRow × DeviceUsageRow)) : String × Nat × Int :=
  (match grp.head? with
   | some p => p.1.name
   | none => "",
   grp.length,
   (grp.map (fun p => p.2.duration)).sum)

/-- Embeds `get_device_usage_summary` (src/app.py lines 187-199): join Device to
DeviceUsage, `GROUP BY Device.id`, select name, count, sum of duration. -/
def get_device_usage_summary (s : Store) : List (String × Nat × Int) :=
  (sqlGroupBy (fun p => p.1.id) (deviceUsageJoin s.devices s.device_usage)).map
    (fun kg => summaryRow kg.2)

/-- The attributes of the `DeviceUsage` declarative class
(src/app.py lines 157-166): the mapped columns plus the two relationship
attributes.  `usage_time` is not among them. -/
def deviceUsageMappedAttrs : List String :=
  ["id", "device_id", "user_id", "usage_start", "usage_end", "duration",
   "device", "user"]

/-- Python attribute access `DeviceUsage.<a>` on the declarative class:
succeeds only for a declared attribute, otherwise raises `AttributeError`. -/
def columnRef (attrs : List String) (a : String) : Except String String :=
  if attrs.contains a then Except.ok a
  else Except.error
    (String.append "AttributeError: type object DeviceUsage has no attribute " a)

/-- Embeds `get_device_usage_time_distribution` (src/app.py lines 201-213): the query
references `DeviceUsage.usage_time` (lines 206 and 210), an attribute the
`DeviceUsage` class does not declare, so building the query raises
`AttributeError` before anything is fetched.  The success branch is
unreachable (there is no `usage_time` column to group by). -/
def get_device_usage_time_distribution (_s : Store) :
    Except String (List (String × String × Nat)) :=
  match columnRef deviceUsageMappedAttrs "usage_time" with
  | Except.error e => Except.error e
  | Except.ok _ => Except.ok []

/-- The three-way inner join `users JOIN devices ON devices.owner_id = users.id
JOIN device_usage ON device_usage.device_id = devices.id`
(src/app.py lines 225-226). -/
def usageByAreaJoin (s : Store) : List (UserRow × DeviceRow × DeviceUsageRow) :=
  s.users.flatMap (fun u =>
    (s.devices.filter (fun d => d.owner_id == u.id)).flatMap (fun d =>
      (usagesOf s.device_usage d.id).map (fun g => (u, d, g))))

/-- The SELECT list of the house-area report (src/app.py lines 219-224):
`house_area`, `Device.name`, `count(DeviceUsage.id)`, `avg(DeviceUsage.duration)`
for one group keyed by (house_area, device name). -/
def areaRow (k : Rat × String) (grp : List (UserRow × DeviceRow × DeviceUsageRow)) :
    Rat × String × Nat × Rat :=
  (k.1, k.2, grp.length,
   ((grp.map (fun t => t.2.2.duration)).sum : Rat) / (grp.length : Rat))

/-- The grouping key of the house-area report (src/app.py line 227):
`GROUP BY User.house_area, Device.name` — by value, not by user identity. -/
def areaKey (t : UserRow × DeviceRow × DeviceUsageRow) : Rat × String :=
  (t.1.house_area, t.2.1.name)

/-- Embeds `analyze_usage_by_house_area` (src/app.py lines 215-230): three-way join,
`GROUP BY User.house_area, Device.name` (grouping by value), count and
average duration per group. -/
def analyze_usage_by_house_area (s : Store) : List (Rat × String × Nat × Rat) :=
  (sqlGroupBy areaKey (usageByAreaJoin s)).map (fun kg => areaRow kg.1 kg.2)

/-- A JSON value of a request body field (only the two shapes the claims
need: strings and numbers). -/
inductive Json where
  | str (s : String)
  | num (q : Rat)
deriving DecidableEq

/-- Field lookup in a JSON object rendered as a key-value list. -/
def jsonLookup (field : String) (p : List (String × Json)) : Option Json :=
  (p.find? (fun kv => kv.1 == field)).map Prod.snd

/-- The module-level names that src/app.py ever binds: the imports of
lines 4-9 and every top-level definition.  `Field`, used at line 57, is
not among them — line 6 imports only `BaseModel` from pydantic. -/
def appModuleNames : List String :=
  ["FastAPI", "HTTPException", "Depends", "uvicorn", "BaseModel", "List",
   "create_engine", "Column", "Integer", "String", "ForeignKey", "Text",
   "sessionmaker", "declarative_base", "relationship", "Session", "func",
   "DATABASE_URL", "engine", "SessionLocal", "Base", "app", "get_db",
   "User", "Device", "SecurityEvent", "Feedback", "DeviceUsage",
   "UserCreate", "DeviceCreate", "SecurityEventCreate", "FeedbackCreate",
   "DeviceUsageCreate", "create_user", "read_users", "create_device",
   "read_devices", "create_security_event", "read_security_events",
   "create_feedback", "read_feedback", "create_device_usage",
   "get_device_usage_summary", "get_device_usage_time_distribution",
   "analyze_usage_by_house_area", "get_user_house_area",
   "get_all_users_house_areas", "read_root", "read_api"]

/-- Python name resolution: evaluating a name the module never binds
raises `NameError`. -/
def nameRef (names : List String) (a : String) : Except String String :=
  if names.contains a then Except.ok a
  else Except.error
    (String.append (String.append "NameError: name " a) " is not defined")

/-- Evaluation of the `UserCreate` class body (src/app.py lines 53-57):
the default value of `house_area` is the call `Field(..., gt=0, ...)` of
line 57, evaluated at class-definition time, which first resolves the name
`Field`.  `Field` is bound nowhere in the module, so this raises
`NameError`: the declared gt-0 validation never comes into existence and
module load aborts. -/
def userCreateClassBody : Except String Unit :=
  match nameRef appModuleNames "Field" with
  | Except.error e => Except.error e
  | Except.ok _ => Except.ok ()

/-- The parse of a request body into the `UserCreate` input shape that the
schema at src/app.py lines 53-57 DECLARES: `name`, `email`, `password`
required strings; `house_area` a required number with `Field(..., gt=0)`.
Note: as written the declared schema never takes effect — `Field` is not
imported, so the class body raises `NameError` at module load (see
`userCreateClassBody` and claim C7).  This parse is kept only as the
interface through which a payload reaches the handler in the statements
of C8 and C10. -/
def parseUserCreate (p : List (String × Json)) : Except String UserCreate :=
  match jsonLookup "name" p, jsonLookup "email" p, jsonLookup "password" p,
      jsonLookup "house_area" p with
  | some (Json.str n), some (Json.str e), some (Json.str pw), some (Json.num a) =>
    if 0 < a then
      Except.ok { name := n, email := e, password := pw, house_area := a }
    else Except.error "ValidationError: house_area must be greater than 0"
  | _, _, _, _ => Except.error "ValidationError: field required or wrong type"

/-- The POST /users/ endpoint: parse the body into the declared
`UserCreate` shape (see `parseUserCreate`), then run `create_user`, then
serialize the persisted row through `response_model=UserCreate`.
On any failure the store is returned unchanged. -/
def post_users (s : Store) (p : List (String × Json)) :
    Except String UserCreate × Store :=
  match parseUserCreate p with
  | Except.error e => (Except.error e, s)
  | Except.ok u =>
    match create_user s u with
    | Except.error e => (Except.error e, s)
    | Except.ok rs => (Except.ok (UserCreate.ofRow rs.1), rs.2)

/-- GET /users/ as a request: reads the store, leaves it unchanged. -/
def read_users_ep (s : Store) : List UserCreate × Store := (read_users s, s)

/-- GET /devices/ as a request. -/
def read_devices_ep (s : Store) : List DeviceCreate × Store := (read_devices s, s)

/-- GET /security_events/ as a request. -/
def read_security_events_ep (s : Store) : List SecurityEventCreate × Store :=
  (read_security_events s, s)

/-- GET /feedback/ as a request. -/
def read_feedback_ep (s : Store) : List FeedbackCreate × Store :=
  (read_feedback s, s)

/-- GET /users/user_id/house_area/ as a request. -/
def house_area_ep (uid : Int) (s : Store) : Except String (Int × Rat) × Store :=
  (get_user_house_area s uid, s)

/-- GET /users/house_areas/ as a request. -/
def all_house_areas_ep (s : Store) : List (Int × String × Rat) × Store :=
  (get_all_users_house_areas s, s)

/-- GET /device_usage/summary/ as a request. -/
def summary_ep (s : Store) : List (String × Nat × Int) × Store :=
  (get_device_usage_summary s, s)

/-- GET /device_usage/time_distribution/ as a request. -/
def time_distribution_ep (s : Store) :
    Except String (List (String × String × Nat)) × Store :=
  (get_device_usage_time_distribution s, s)

/-- GET /usage_by_house_area/ as a request. -/
def usage_by_house_area_ep (s : Store) : List (Rat × String × Nat × Rat) × Store :=
  (analyze_usage_by_house_area s, s)

/-- The rows of the three-way join falling in the (house_area, device name)
group `(a, nm)`. -/
def areaGroup (s : Store) (a : Rat) (nm : String) :
    List (UserRow × DeviceRow × DeviceUsageRow) :=
  (usageByAreaJoin s).filter (fun t => decide (t.1.house_area = a ∧ t.2.1.name = nm))

/-- The empty store (fresh database). -/
def emptyStore : Store :=
  { users := [], devices := [], security_events := [], feedback := [],
    device_usage := [] }

/-- A store holding a single user, id 1. -/
def oneUserStore : Store :=
  { users := [{ id := 1, name := "alice", email := "alice@home",
                password := "pw", house_area := 120 }],
    devices := [], security_events := [], feedback := [], device_usage := [] }

/-- A well-typed user-create request body with a fresh email. -/
def freshPayload : List (String × Json) :=
  [("name", Json.str "carol"), ("email", Json.str "carol@home"),
   ("password", Json.str "secret"), ("house_area", Json.num 80)]

/-- A store exercising the usage summary: device 1 has usages of durations
30 and 70, device 2 has none (matches the spec example of §8). -/
def summaryStore : Store :=
  { users := [{ id := 1, name := "alice", email := "alice@home",
                password := "pw", house_area := 120 }],
    devices := [{ id := 1, name := "lamp", type := "light", owner_id := 1 },
                { id := 2, name := "fan", type := "climate", owner_id := 1 }],
    security_events := [],
    feedback := [],
    device_usage :=
      [{ id := 1, device_id := 1, user_id := 1, usage_start := "08:00",
         usage_end := "08:30", duration := 30 },
       { id := 2, device_id := 1, user_id := 1, usage_start := "20:00",
         usage_end := "21:10", duration := 70 }] }

/-! ## Helper lemmas -/

theorem filter_eq_of_nodup {α : Type} [DecidableEq α] (l : List α) (hl : l.Nodup)
    (x : α) :
    l.filter (fun y => decide (y = x)) = if x ∈ l then [x] else [] := by
  induction l with
  | nil => simp
  | cons a t ih =>
    rcases List.nodup_cons.mp hl with ⟨ha, ht⟩
    by_cases hax : a = x
    · subst hax
      simp [List.filter_cons, ih ht, ha]
    · simp [List.filter_cons, hax, ih ht, Ne.symm hax]

theorem dedup_replicate_append {α : Type} [DecidableEq α] (a : α) (n : Nat)
    (L : List α) (ha : a ∉ L) :
    (List.replicate n a ++ L).dedup = if n = 0 then L.dedup else a :: L.dedup := by
  induction n with
  | zero => simp
  | succ m ih =>
    rw [List.replicate_succ, List.cons_append]
    by_cases hm : m = 0
    · subst hm
      simp [List.dedup_cons_of_not_mem, ha]
    · rw [List.dedup_cons_of_mem
        (List.mem_append_left _ (List.mem_replicate.mpr ⟨hm, rfl⟩)), ih]
      simp [hm]

theorem mem_deviceUsageJoin {devs : List DeviceRow} {usage : List DeviceUsageRow}
    {p : DeviceRow × DeviceUsageRow} (hp : p ∈ deviceUsageJoin devs usage) :
    p.1 ∈ devs := by
  simp only [deviceUsageJoin, List.mem_flatMap, List.mem_map] at hp
  obtain ⟨d, hd, g, _, rfl⟩ := hp
  exact hd

/-! ## Claims -/

/-- Claim C3: the spec says the usage time distribution report joins Device to
DeviceUsage, groups by (device identity, usage_time value) and returns one
row per pair.  In the code the query references `DeviceUsage.usage_time`
(src/app.py lines 206 and 210), an attribute the `DeviceUsage` class does
not declare, so every request to this endpoint fails with an
`AttributeError`; no (device, usage_time) rows are ever produced. -/
theorem C3_time_distribution_always_fails :
    ∀ s : Store,
      get_device_usage_time_distribution s
        = Except.error
            "AttributeError: type object DeviceUsage has no attribute usage_time" :=
  fun _ => rfl

/-- Claim C5: the spec says every valid DeviceUsage create payload inserts
exactly one row and returns it.  In the code the handler passes
`usage_time=` to the `DeviceUsage` constructor (src/app.py line 177), which
has no such column, so the constructor raises `TypeError` before `db.add`:
the create never inserts anything, for any payload and any store state. -/
theorem C5_create_device_usage_always_fails :
    ∀ (s : Store) (u : DeviceUsageCreate),
      create_device_usage s u
        = Except.error "usage_time is an invalid keyword argument for DeviceUsage" :=
  fun _ _ => rfl

/-- Claim C6: the single-user house-area lookup fails with an explicit
NotFound signal (HTTP 404, "User not found") whenever no User with the
requested identity exists, and otherwise returns the identity paired with
the house_area of that user. -/
theorem C6_house_area_lookup (s : Store) (uid : Int) :
    ((∀ u ∈ s.users, u.id ≠ uid) →
      get_user_house_area s uid = Except.error "User not found")
    ∧ (∀ u ∈ s.users, u.id = uid → (s.users.map UserRow.id).Nodup →
      get_user_house_area s uid = Except.ok (uid, u.house_area)) := by
  constructor
  · intro h
    have hnil : s.users.filter (fun u => u.id == uid) = [] :=
      List.filter_eq_nil_iff.mpr (fun u hu => by simpa using h u hu)
    simp [get_user_house_area, hnil]
  · intro u hu huid hnd
    cases hflt : s.users.filter (fun u => u.id == uid) with
    | nil =>
      have : u ∈ s.users.filter (fun v => v.id == uid) :=
        List.mem_filter.mpr ⟨hu, by simpa using huid⟩
      rw [hflt] at this
      exact absurd this (List.not_mem_nil u)
    | cons v t =>
      have hv : v ∈ s.users.filter (fun w => w.id == uid) := by
        rw [hflt]; exact List.mem_cons_self v t
      have hv' := List.mem_filter.mp hv
      have hvid : v.id = uid := by simpa using hv'.2
      have hvu : v = u :=
        List.inj_on_of_nodup_map hnd hv'.1 hu (by rw [hvid, huid])
      rw [get_user_house_area, hflt]
      simp [hvu]

/-- Witness for C6: in a store whose only user has identity 1, looking up
identity 9999 yields the explicit NotFound error. -/
theorem C6_house_area_lookup_witness :
    get_user_house_area oneUserStore 9999 = Except.error "User not found" :=
  (C6_house_area_lookup oneUserStore 9999).1 (by decide)

/-- Claim C8: creating a User whose email equals the email of an already-stored
User fails at commit (UNIQUE constraint on users.email): no row is
persisted (the store comes back unchanged) and the store-level error
propagates verbatim through the service layer. -/
theorem C8_duplicate_email (s : Store) (u : UserCreate)
    (hdup : ∃ v ∈ s.users, v.email = u.email) :
    create_user s u
      = Except.error "IntegrityError: UNIQUE constraint failed: users.email"
    ∧ ∀ p, parseUserCreate p = Except.ok u →
        post_users s p
          = (Except.error "IntegrityError: UNIQUE constraint failed: users.email", s) := by
  have hany : s.users.any (fun v => v.email == u.email) = true := by
    obtain ⟨v, hv, he⟩ := hdup
    exact List.any_eq_true.mpr ⟨v, hv, by simpa using he⟩
  constructor
  · simp [create_user, hany]
  · intro p hp
    simp [post_users, hp, create_user, hany]

/-- Witness for C8: a second user with the stored email "alice@home" is
rejected with the uniqueness failure. -/
theorem C8_duplicate_email_witness :
    create_user oneUserStore
        { name := "alice2", email := "alice@home", password := "pw2",
          house_area := 50 }
      = Except.error "IntegrityError: UNIQUE constraint failed: users.email" :=
  (C8_duplicate_email oneUserStore
    { name := "alice2", email := "alice@home", password := "pw2",
      house_area := 50 } (by decide)).1

/-- Claim C9: every list / report read endpoint is read-only (it hands back
the store unchanged) and calling it twice with no intervening writes
returns identical results both times. -/
theorem C9_reads_idempotent (s : Store) (uid : Int) :
    ((read_users_ep s).2 = s
      ∧ (read_users_ep (read_users_ep s).2).1 = (read_users_ep s).1)
    ∧ ((read_devices_ep s).2 = s
      ∧ (read_devices_ep (read_devices_ep s).2).1 = (read_devices_ep s).1)
    ∧ ((read_security_events_ep s).2 = s
      ∧ (read_security_events_ep (read_security_events_ep s).2).1
          = (read_security_events_ep s).1)
    ∧ ((read_feedback_ep s).2 = s
      ∧ (read_feedback_ep (read_feedback_ep s).2).1 = (read_feedback_ep s).1)
    ∧ ((house_area_ep uid s).2 = s
      ∧ (house_area_ep uid (house_area_ep uid s).2).1 = (house_area_ep uid s).1)
    ∧ ((all_house_areas_ep s).2 = s
      ∧ (all_house_areas_ep (all_house_areas_ep s).2).1 = (all_house_areas_ep s).1)
    ∧ ((summary_ep s).2 = s
      ∧ (summary_ep (summary_ep s).2).1 = (summary_ep s).1)
    ∧ ((time_distribution_ep s).2 = s
      ∧ (time_distribution_ep (time_distribution_ep s).2).1
          = (time_distribution_ep s).1)
    ∧ ((usage_by_house_area_ep s).2 = s
      ∧ (usage_by_house_area_ep (usage_by_house_area_ep s).2).1
          = (usage_by_house_area_ep s).1) :=
  ⟨⟨rfl, rfl⟩, ⟨rfl, rfl⟩, ⟨rfl, rfl⟩, ⟨rfl, rfl⟩, ⟨rfl, rfl⟩, ⟨rfl, rfl⟩,
   ⟨rfl, rfl⟩, ⟨rfl, rfl⟩, ⟨rfl, rfl⟩⟩

/-- Claim C10: a successful create-user response echoes the submitted password
verbatim (the response model `UserCreate` serializes every input field),
and the list-users endpoint returns the stored password of every user row. -/
theorem C10_password_exposed (s : Store) (u : UserCreate)
    (hfresh : ∀ v ∈ s.users, v.email ≠ u.email) :
    (∀ p, parseUserCreate p = Except.ok u → ∃ resp s2,
        post_users s p = (Except.ok resp, s2) ∧ resp.password = u.password)
    ∧ (read_users s).map UserCreate.password = s.users.map UserRow.password := by
  have hany : s.users.any (fun v => v.email == u.email) = false := by
    rw [List.any_eq_false]
    intro v hv
    simpa using hfresh v hv
  constructor
  · intro p hp
    have hpost : post_users s p
        = (Except.ok (UserCreate.ofRow
            { id := nextId (s.users.map UserRow.id), name := u.name,
              email := u.email, password := u.password,
              house_area := u.house_area }),
           { s with users := s.users ++
              [{ id := nextId (s.users.map UserRow.id), name := u.name,
                 email := u.email, password := u.password,
                 house_area := u.house_area }] }) := by
      simp [post_users, hp, create_user, hany]
    exact ⟨_, _, hpost, rfl⟩
  · simp [read_users, List.map_map, Function.comp, UserCreate.ofRow]

/-- Witness for C10: creating "carol" with password "secret" on the empty
store returns a response whose password field is "secret". -/
theorem C10_password_exposed_witness :
    ∃ resp s2, post_users emptyStore freshPayload = (Except.ok resp, s2)
      ∧ resp.password = "secret" :=
  (C10_password_exposed emptyStore
    { name := "carol", email := "carol@home", password := "secret",
      house_area := 80 } (by decide)).1 freshPayload rfl

/-! ## Grouping lemmas for the usage summary -/

theorem deviceUsageJoin_cons (d : DeviceRow) (ds : List DeviceRow)
    (usage : List DeviceUsageRow) :
    deviceUsageJoin (d :: ds) usage
      = (usagesOf usage d.id).map (fun g => (d, g)) ++ deviceUsageJoin ds usage := by
  simp [deviceUsageJoin]

theorem deviceUsageJoin_keys (d : DeviceRow) (usage : List DeviceUsageRow) :
    ((usagesOf usage d.id).map (fun g => (d, g))).map (fun p => p.1.id)
      = List.replicate (usagesOf usage d.id).length d.id := by
  rw [List.map_map]
  have hcomp : ((fun p : DeviceRow × DeviceUsageRow => p.1.id) ∘ fun g => (d, g))
      = fun _ => d.id := rfl
  rw [hcomp]
  exact List.map_const' _ _

theorem not_mem_join_keys {ds : List DeviceRow} {usage : List DeviceUsageRow}
    {i : Int} (hi : i ∉ ds.map DeviceRow.id) :
    i ∉ (deviceUsageJoin ds usage).map (fun p => p.1.id) := by
  intro hmem
  obtain ⟨p, hp, hpi⟩ := List.mem_map.mp hmem
  exact hi (List.mem_map.mpr ⟨p.1, mem_deviceUsageJoin hp, hpi⟩)

theorem join_filter_self (d : DeviceRow) (ds : List DeviceRow)
    (usage : List DeviceUsageRow) (hd : d.id ∉ ds.map DeviceRow.id) :
    ((usagesOf usage d.id).map (fun g => (d, g)) ++ deviceUsageJoin ds usage).filter
        (fun p => decide (p.1.id = d.id))
      = (usagesOf usage d.id).map (fun g => (d, g)) := by
  rw [List.filter_append]
  have h1 : ((usagesOf usage d.id).map (fun g => (d, g))).filter
      (fun p => decide (p.1.id = d.id))
      = (usagesOf usage d.id).map (fun g => (d, g)) := by
    apply List.filter_eq_self.mpr
    intro p hp
    obtain ⟨g, _, rfl⟩ := List.mem_map.mp hp
    simp
  have h2 : (deviceUsageJoin ds usage).filter (fun p => decide (p.1.id = d.id))
      = [] := by
    apply List.filter_eq_nil_iff.mpr
    intro p hp
    simp only [decide_eq_true_eq]
    intro hpd
    exact hd (List.mem_map.mpr ⟨p.1, mem_deviceUsageJoin hp, hpd⟩)
  rw [h1, h2, List.append_nil]

theorem join_filter_other (d : DeviceRow) (ds : List DeviceRow)
    (usage : List DeviceUsageRow) {k : Int} (hk : k ≠ d.id) :
    ((usagesOf usage d.id).map (fun g => (d, g)) ++ deviceUsageJoin ds usage).filter
        (fun p => decide (p.1.id = k))
      = (deviceUsageJoin ds usage).filter (fun p => decide (p.1.id = k)) := by
  rw [List.filter_append]
  have h1 : ((usagesOf usage d.id).map (fun g => (d, g))).filter
      (fun p => decide (p.1.id = k)) = [] := by
    apply List.filter_eq_nil_iff.mpr
    intro p hp
    obtain ⟨g, _, rfl⟩ := List.mem_map.mp hp
    simpa using Ne.symm hk
  rw [h1, List.nil_append]

theorem deviceUsage_groups (devs : List DeviceRow) (usage : List DeviceUsageRow)
    (h : (devs.map DeviceRow.id).Nodup) :
    sqlGroupBy (fun p => p.1.id) (deviceUsageJoin devs usage)
      = (devs.filter (fun d => !(usagesOf usage d.id).isEmpty)).map
          (fun d => (d.id, (usagesOf usage d.id).map (fun g => (d, g)))) := by
  induction devs with
  | nil => rfl
  | cons d ds ih =>
    rw [List.map_cons, List.nodup_cons] at h
    obtain ⟨hd, hds⟩ := h
    have hdk : d.id ∉ (deviceUsageJoin ds usage).map (fun p => p.1.id) :=
      not_mem_join_keys hd
    simp only [sqlGroupBy] at ih ⊢
    rw [deviceUsageJoin_cons, List.map_append, deviceUsageJoin_keys,
      dedup_replicate_append _ _ _ hdk]
    by_cases hus : usagesOf usage d.id = []
    · rw [if_pos (by rw [hus]; rfl)]
      rw [hus]
      simp only [List.map_nil, List.nil_append]
      rw [ih hds, List.filter_cons]
      simp [hus]
    · rw [if_neg (by simpa [List.length_eq_zero] using hus)]
      rw [List.map_cons, join_filter_self d ds usage hd]
      have htail :
          ((deviceUsageJoin ds usage).map (fun p => p.1.id)).dedup.map
              (fun k => (k,
                ((usagesOf usage d.id).map (fun g => (d, g))
                    ++ deviceUsageJoin ds usage).filter
                  (fun p => decide (p.1.id = k))))
            = ((deviceUsageJoin ds usage).map (fun p => p.1.id)).dedup.map
              (fun k => (k, (deviceUsageJoin ds usage).filter
                  (fun p => decide (p.1.id = k)))) := by
        apply List.map_congr_left
        intro k hk
        have hk2 : k ∈ (deviceUsageJoin ds usage).map (fun p => p.1.id) :=
          List.mem_dedup.mp hk
        obtain ⟨p, hp, hpk⟩ := List.mem_map.mp hk2
        have hkd : k ≠ d.id := by
          intro hkd
          exact hd (List.mem_map.mpr ⟨p.1, mem_deviceUsageJoin hp, hpk.trans hkd⟩)
        rw [join_filter_other d ds usage hkd]
      rw [htail, ih hds, List.filter_cons]
      simp [hus]

/-- Claim C1: the device usage summary returns exactly one row per device that
has at least one DeviceUsage row joined on device_id — carrying the
name of that device, the count of its usage records and the sum of their
durations — and devices with zero usage records contribute no row (inner
join semantics).  The hypothesis is the primary-key invariant: device ids
are unique. -/
theorem C1_usage_summary (s : Store) (h : (s.devices.map DeviceRow.id).Nodup) :
    get_device_usage_summary s
      = (s.devices.filter (fun d => !(usagesOf s.device_usage d.id).isEmpty)).map
          (fun d => (d.name, (usagesOf s.device_usage d.id).length,
            ((usagesOf s.device_usage d.id).map DeviceUsageRow.duration).sum)) := by
  unfold get_device_usage_summary
  rw [deviceUsage_groups s.devices s.device_usage h, List.map_map]
  apply List.map_congr_left
  intro d hd
  cases hus : usagesOf s.device_usage d.id with
  | nil =>
    have h2 := (List.mem_filter.mp hd).2
    rw [hus] at h2
    simp at h2
  | cons g gs =>
    simp [summaryRow, Function.comp, List.map_map, hus]
    rfl

/-- Witness for C1, the §8 example of the spec: device "lamp" has two usages of
durations 30 and 70 and appears as ("lamp", 2, 100); device "fan" has zero
usages and is absent from the summary. -/
theorem C1_usage_summary_witness :
    get_device_usage_summary summaryStore = [("lamp", 2, 100)] := by
  rw [C1_usage_summary summaryStore (by decide)]
  decide

/-! ## Group-selection lemma for the house-area report -/

theorem sqlGroupBy_key_filter {α κ : Type} [DecidableEq κ] (key : α → κ)
    (rows : List α) (k0 : κ) :
    (sqlGroupBy key rows).filter (fun kg => decide (kg.1 = k0))
      = if (rows.filter (fun r => decide (key r = k0))).isEmpty then []
        else [(k0, rows.filter (fun r => decide (key r = k0)))] := by
  unfold sqlGroupBy
  rw [List.filter_map]
  have hcong : ∀ k ∈ (rows.map key).dedup,
      ((fun kg : κ × List α => decide (kg.1 = k0)) ∘
        (fun k => (k, rows.filter (fun r => decide (key r = k))))) k
        = decide (k = k0) := fun k _ => rfl
  rw [List.filter_congr hcong,
    filter_eq_of_nodup _ (List.nodup_dedup _) k0]
  by_cases hk : k0 ∈ (rows.map key).dedup
  · obtain ⟨r, hr, hrk⟩ := List.mem_map.mp (List.mem_dedup.mp hk)
    have hmemf : r ∈ rows.filter (fun r => decide (key r = k0)) :=
      List.mem_filter.mpr ⟨hr, by simpa using hrk⟩
    have hne : (rows.filter (fun r => decide (key r = k0))).isEmpty = false := by
      cases hE : (rows.filter (fun r => decide (key r = k0))).isEmpty with
      | false => rfl
      | true =>
        rw [List.isEmpty_iff] at hE
        rw [hE] at hmemf
        exact absurd hmemf (List.not_mem_nil r)
    rw [if_pos hk]
    simp [hne]
  · have hnil : rows.filter (fun r => decide (key r = k0)) = [] := by
      apply List.filter_eq_nil_iff.mpr
      intro r hr
      simp only [decide_eq_true_eq]
      intro hk0
      exact hk (List.mem_dedup.mpr (List.mem_map.mpr ⟨r, hr, hk0⟩))
    rw [if_neg hk]
    simp [hnil]

theorem areaGroup_eq (s : Store) (a : Rat) (nm : String) :
    areaGroup s a nm
      = (usageByAreaJoin s).filter (fun r => decide (areaKey r = (a, nm))) := by
  unfold areaGroup
  apply List.filter_congr
  intro t _
  simp [areaKey, Prod.ext_iff]

/-- Claim C2: the usage-by-house-area report returns, for every
(house_area value, device name) pair, exactly one row — present iff the
three-way join User–Device–DeviceUsage has at least one row in that group —
carrying the count of joined rows and the average duration.  Since grouping
is by the house_area VALUE, rows of two distinct users sharing the same
house_area land in the same group. -/
theorem C2_usage_by_house_area (s : Store) (a : Rat) (nm : String) :
    (analyze_usage_by_house_area s).filter
        (fun r => decide (r.1 = a ∧ r.2.1 = nm))
      = if (areaGroup s a nm).isEmpty then []
        else [(a, nm, (areaGroup s a nm).length,
               (((areaGroup s a nm).map (fun t => t.2.2.duration)).sum : Rat)
                 / ((areaGroup s a nm).length : Rat))] := by
  unfold analyze_usage_by_house_area
  rw [List.filter_map]
  have hcong : ∀ kg ∈ sqlGroupBy areaKey (usageByAreaJoin s),
      ((fun r : Rat × String × Nat × Rat => decide (r.1 = a ∧ r.2.1 = nm)) ∘
        (fun kg => areaRow kg.1 kg.2)) kg
        = decide (kg.1 = (a, nm)) := by
    intro kg _
    show decide ((areaRow kg.1 kg.2).1 = a ∧ (areaRow kg.1 kg.2).2.1 = nm)
        = decide (kg.1 = (a, nm))
    exact decide_eq_decide.mpr (by simp [areaRow, Prod.ext_iff])
  rw [List.filter_congr hcong, sqlGroupBy_key_filter areaKey (usageByAreaJoin s) (a, nm),
    ← areaGroup_eq]
  by_cases hE : (areaGroup s a nm).isEmpty
  · simp [hE]
  · simp only [hE, if_false, List.map_cons, List.map_nil]
    simp [areaRow]

/-- Claim C7: the spec says user creation fails with a ValidationError
before any store access whenever house_area is nonpositive or a required
field is missing or mistyped, and that a well-typed positive payload
succeeds.  In the code this validation is declared by `Field(..., gt=0)`
at src/app.py line 57, but `Field` is never imported — line 6 imports only
`BaseModel` from pydantic and no other statement binds it — so evaluating
the `UserCreate` class body raises `NameError` at module load: the
declared validation does not exist in the executable program and no
request is ever validated. -/
theorem C7_validation_not_defined :
    userCreateClassBody = Except.error "NameError: name Field is not defined" :=
  rfl

/-- Claim C4: the uniform create contract — insert exactly one row, return the
persisted record with fields equal to the submitted ones, and have a
subsequent list call include that record — holds for User (given a fresh
email, per the email-uniqueness invariant), Device, SecurityEvent and
Feedback; it FAILS for the fifth entity, DeviceUsage, whose create raises
before inserting anything — the code bug recorded for this claim. -/
theorem C4_create_contract (s : Store) (u : UserCreate) (d : DeviceCreate)
    (ev : SecurityEventCreate) (fb : FeedbackCreate) (g : DeviceUsageCreate)
    (hfresh : ∀ v ∈ s.users, v.email ≠ u.email) :
    (∃ r, create_user s u = Except.ok (r, { s with users := s.users ++ [r] })
        ∧ UserCreate.ofRow r = u
        ∧ u ∈ read_users { s with users := s.users ++ [r] })
    ∧ ((create_device s d).2
          = { s with devices := s.devices ++ [(create_device s d).1] }
        ∧ DeviceCreate.ofRow (create_device s d).1 = d
        ∧ d ∈ read_devices (create_device s d).2)
    ∧ ((create_security_event s ev).2
          = { s with security_events :=
                s.security_events ++ [(create_security_event s ev).1] }
        ∧ SecurityEventCreate.ofRow (create_security_event s ev).1 = ev
        ∧ ev ∈ read_security_events (create_security_event s ev).2)
    ∧ ((create_feedback s fb).2
          = { s with feedback := s.feedback ++ [(create_feedback s fb).1] }
        ∧ FeedbackCreate.ofRow (create_feedback s fb).1 = fb
        ∧ fb ∈ read_feedback (create_feedback s fb).2)
    ∧ create_device_usage s g
        = Except.error "usage_time is an invalid keyword argument for DeviceUsage" := by
  have hany : s.users.any (fun v => v.email == u.email) = false := by
    rw [List.any_eq_false]
    intro v hv
    simpa using hfresh v hv
  refine ⟨?_, ⟨rfl, rfl, ?_⟩, ⟨rfl, rfl, ?_⟩, ⟨rfl, rfl, ?_⟩, rfl⟩
  · refine ⟨{ id := nextId (s.users.map UserRow.id), name := u.name,
              email := u.email, password := u.password,
              house_area := u.house_area }, ?_, rfl, ?_⟩
    · simp [create_user, hany]
    · show u ∈ List.map UserCreate.ofRow (s.users ++
        [{ id := nextId (s.users.map UserRow.id), name := u.name,
           email := u.email, password := u.password,
           house_area := u.house_area }])
      rw [List.map_append]
      exact List.mem_append_right _ (List.mem_singleton.mpr rfl)
  · show d ∈ List.map DeviceCreate.ofRow (s.devices ++ [(create_device s d).1])
    rw [List.map_append]
    exact List.mem_append_right _ (List.mem_singleton.mpr rfl)
  · show ev ∈ List.map SecurityEventCreate.ofRow
      (s.security_events ++ [(create_security_event s ev).1])
    rw [List.map_append]
    exact List.mem_append_right _ (List.mem_singleton.mpr rfl)
  · show fb ∈ List.map FeedbackCreate.ofRow (s.feedback ++ [(create_feedback s fb).1])
    rw [List.map_append]
    exact List.mem_append_right _ (List.mem_singleton.mpr rfl)

/-- Witness for C4: concrete payloads against the empty store; the fresh
email hypothesis holds vacuously, and the DeviceUsage create fails on the
concrete payload (device 1, "morning", 30 seconds). -/
theorem C4_create_contract_witness :
    (∀ v ∈ emptyStore.users, v.email ≠ "dave@home")
    ∧ create_device_usage emptyStore
        { device_id := 1, usage_time := "morning", duration := 30 }
        = Except.error "usage_time is an invalid keyword argument for DeviceUsage" :=
  ⟨by decide,
   (C4_create_contract emptyStore
      { name := "dave", email := "dave@home", password := "pw", house_area := 100 }
      { name := "lamp", type := "light", owner_id := 1 }
      { event_type := "alarm", description := "door opened", device_id := 1 }
      { user_id := 1, feedback_text := "works" }
      { device_id := 1, usage_time := "morning", duration := 30 }
      (by decide)).2.2.2.2⟩
